import Mathlib

/-!
Shallow embedding of the jschmold/users authentication library
(ExpireableToken, Password record shape, SecondaryEmail, UserAccount
with its pure transition functions and mutating instance methods).

The repository carries two revisions of `user-account.ts`; this
development embeds the fuller revision (the one that also defines
`login`, `register` and the instance-side validation), which is the
revision the rest of the code and the documentation describe.
`expireable-token.ts` is embedded from its current revision (the one
defining `validateStrings` and `validate`).

Modelling conventions:
- JavaScript `Date` values and timestamps are rationals (milliseconds);
  the expiration length (hours, possibly fractional) is a rational.
- An absent (`undefined`/`null`) field is `Option.none`.
- The stored credential object is a record of *optional* fields so that
  the object spread `{ ...obj.password }` — which yields an empty object
  `{}` when `obj.password` is absent — can be represented faithfully.
- Process-wide mutable configuration (token generator, expiration
  length, default status, hashing collaborator) is passed explicitly as
  parameters to the functions that read it.
- Functions that `throw` are embedded as `Except String` values carrying
  the thrown message; mutating instance methods are embedded as
  functions from the receiver state to `Except String Unit × state`,
  the second component being the receiver's state when the method
  returns or throws.
-/

/-- `IExpireableToken`: created timestamp, opaque token string, bound email. -/
structure IExpireableToken where
  created : ℚ
  token : String
  email : String
deriving DecidableEq

namespace ExpireableToken

/-- The `ExpirationLength` setter's normalization: `null` or any value `≤ 0`
is stored as `null` ("never expires"); positive values are stored as given. -/
def setExpirationLength : Option ℚ → Option ℚ
  | none => none
  | some n => if n ≤ 0 then none else some n

/-- `ExpireableToken.expiryDate`: `null` when `ExpirationLength` is `null`,
otherwise `created + ExpirationLength * 60² * 1000` milliseconds. -/
def expiryDate (expirationLength : Option ℚ) (reset : IExpireableToken) : Option ℚ :=
  match expirationLength with
  | none => none
  | some len => some (reset.created + len * 60 ^ 2 * 1000)

/-- `ExpireableToken.hasExpired`: false when `ExpirationLength` is `null`
(or the computed expiration is `null`), otherwise `now ≥ expiration`. -/
def hasExpired (expirationLength : Option ℚ) (now : ℚ) (reset : IExpireableToken) : Bool :=
  match expirationLength, expiryDate expirationLength reset with
  | none, _ => false
  | some _, none => false
  | some _, some e => decide (now ≥ e)

/-- `ExpireableToken.validateStrings obj token`: `obj != null && obj.token === token`. -/
def validateStrings (obj : Option IExpireableToken) (token : String) : Bool :=
  match obj with
  | none => false
  | some o => o.token == token

/-- `ExpireableToken.validate objA objB`: `validateStrings(objA, objB.token)`. -/
def validate (objA : IExpireableToken) (objB : IExpireableToken) : Bool :=
  validateStrings (some objA) objB.token

end ExpireableToken

/-- The stored credential object. Fields are optional so that the spread of
an absent credential (`{ ...undefined } = {}`) is representable: a credential
produced by the hashing collaborator has every field set, while the empty
object has none. -/
structure IPassword where
  hash : Option String
  salt : Option String
  created : Option ℚ
deriving DecidableEq

/-- The object spread `{ ...obj.password }`: copies the fields of a present
credential, and yields the empty object when the credential is absent. -/
def spreadPassword : Option IPassword → IPassword
  | none => { hash := none, salt := none, created := none }
  | some p => { hash := p.hash, salt := p.salt, created := p.created }

/-- `SecondaryEmail`: email, optional label, added-timestamp. -/
structure SecondaryEmail where
  email : String
  label : Option String
  added : ℚ
deriving DecidableEq

/-- The account record (`IUserAccount`). `status` is a plain string because
the runtime checks validate it against `statusKeys` dynamically. -/
structure IUserAccount where
  username : Option String
  primaryEmail : String
  emails : List SecondaryEmail
  status : String
  activation : Option IExpireableToken
  password : Option IPassword
  reset : Option IExpireableToken
deriving DecidableEq

/-- JavaScript array indexing `l[n]` with a (possibly negative or
out-of-range) integer index: `undefined` outside `[0, length)`. -/
def jsGet {α : Type} (l : List α) (n : ℤ) : Option α :=
  if n < 0 then none else l.get? n.toNat

namespace UserAccount

/-- `statusKeys = ['active', 'locked', 'activation']`. -/
def statusKeys : List String := ["active", "locked", "activation"]

/-- `UserAccount.fromObject`: the clone used by every pure transition. It
rebuilds the account, spreading the credential (`{ ...obj.password }` — note
this always yields a *present* object, empty when the input credential is
absent), copying `activation`/`reset` by reference, and copying the `emails`
list (element copies are field-for-field, so value-identical here). -/
def fromObject (obj : IUserAccount) : IUserAccount :=
  { username := obj.username
    primaryEmail := obj.primaryEmail
    emails := obj.emails
    status := obj.status
    activation := obj.activation
    password := some (spreadPassword obj.password)
    reset := obj.reset }

/-- `UserAccount.createActivation` (pure): clone plus a fresh token bound to
`user.primaryEmail`; `genTok` and `now` stand for `Generator()` and
`new Date()`. -/
def createActivation (genTok : String) (now : ℚ) (user : IUserAccount) : IUserAccount :=
  let obj := fromObject user
  { obj with
      activation := some { created := now, token := genTok, email := user.primaryEmail }
      emails := user.emails }

/-- `UserAccount.activate` (pure): requires a pending activation whose token
string matches; on success the clone has `activation` deleted. -/
def activate (user : IUserAccount) (token : String) : Except String IUserAccount :=
  if user.activation = none then
    .error "Unable to activate object. Activation does not exist on object."
  else if ExpireableToken.validateStrings user.activation token = false then
    .error "Unable to activate. Tokens for activation do not match."
  else
    .ok { fromObject user with emails := user.emails, activation := none }

/-- `UserAccount.addEmail` (pure): appends `new SecondaryEmail(email, label)`
to the clone's emails. (The `typeof email !== 'string'` guard is enforced by
the embedding's types.) -/
def addEmail (now : ℚ) (user : IUserAccount) (email : String) (label : Option String) :
    IUserAccount :=
  { fromObject user with
      emails := user.emails ++ [{ email := email, label := label, added := now }] }

/-- `UserAccount.removeEmail` (pure): resolves a string to `findIndex` (−1 if
not found); a negative index returns the shallow copy `{ ...user }` untouched,
otherwise the clone's emails with `splice(index, 1)` applied. -/
def removeEmail (user : IUserAccount) (email : String ⊕ ℤ) : IUserAccount :=
  let index : ℤ :=
    match email with
    | .inl s =>
      match List.findIdx? (fun v => v.email == s) user.emails with
      | none => -1
      | some i => (i : ℤ)
    | .inr n => n
  if index < 0 then
    { username := user.username, primaryEmail := user.primaryEmail, emails := user.emails
      status := user.status, activation := user.activation, password := user.password
      reset := user.reset }
  else
    { fromObject user with emails := user.emails.eraseIdx index.toNat }

/-- `UserAccount.createReset` (pure): clone plus a fresh reset token bound to
the clone's `primaryEmail`. -/
def createReset (genTok : String) (now : ℚ) (user : IUserAccount) : IUserAccount :=
  let obj := { fromObject user with emails := user.emails }
  { obj with reset := some { created := now, token := genTok, email := obj.primaryEmail } }

/-- `UserAccount.applyReset` (pure): requires a pending reset whose token
string matches; on success the clone has `reset` deleted. -/
def applyReset (user : IUserAccount) (token : String) : Except String IUserAccount :=
  if user.reset = none then
    .error "Reset does not exist on object"
  else if ExpireableToken.validateStrings user.reset token = false then
    .error "Token does not align with reset token"
  else
    .ok { fromObject user with emails := user.emails, reset := none }

/-- `UserAccount.setPrimaryEmail` (pure): a string argument becomes the new
primary email; an integer argument indexes `emails`, throwing an
out-of-bounds error when `emails[n]` is `undefined`. -/
def setPrimaryEmail (user : IUserAccount) (obj : String ⊕ ℤ) : Except String IUserAccount :=
  match obj with
  | .inr n =>
    match jsGet user.emails n with
    | none =>
      .error ("Index " ++ toString n ++
        " is out of bounds; Email at user.emails at index is undefined.")
    | some em =>
      .ok { fromObject user with emails := user.emails, primaryEmail := em.email }
  | .inl s => .ok { fromObject user with emails := user.emails, primaryEmail := s }

/-- `UserAccount.setPassword` (pure): `null` clears the credential
(`undefined` on the clone), otherwise the credential produced by the hashing
collaborator `hashFn` (standing for `await Password.create(pwd)`). -/
def setPassword (hashFn : String → IPassword) (user : IUserAccount) (pwd : Option String) :
    IUserAccount :=
  { fromObject user with password := pwd.map hashFn }

/-- `UserAccount.forceStatus` (pure): rejects a status not in `statusKeys`,
otherwise sets it on the clone. -/
def forceStatus (user : IUserAccount) (status : String) : Except String IUserAccount :=
  if statusKeys.contains status = false then
    .error ("Invalid status key " ++ status ++ ". Valid keys are active, locked, activation")
  else
    .ok { fromObject user with status := status }

/-- `UserAccount.deactivate` (pure): clone with status `locked`. -/
def deactivate (user : IUserAccount) : IUserAccount :=
  { fromObject user with status := "locked" }

/-- `UserAccount.reactivate` (pure): clone with status `active`. -/
def reactivate (user : IUserAccount) : IUserAccount :=
  { fromObject user with status := "active" }

/-- `UserAccount.create`: fresh account with the given primary email, the
process-wide default status, empty emails; the credential is set from the
hashing collaborator only when `password` is truthy (`if (password)`), i.e.
present *and* non-empty. -/
def create (defaultStatus : String) (hashFn : String → IPassword) (email : String)
    (password : Option String) : IUserAccount :=
  let obj : IUserAccount :=
    { username := none, primaryEmail := email, emails := [], status := defaultStatus
      activation := none, password := none, reset := none }
  match password with
  | some p => if p == "" then obj else { obj with password := some (hashFn p) }
  | none => obj

/-- `UserAccount.register`: `create`, then `createActivation`, then
`forceStatus('activation')`. -/
def register (defaultStatus : String) (hashFn : String → IPassword) (genTok : String)
    (now : ℚ) (email : String) (password : Option String) : Except String IUserAccount :=
  let obj := create defaultStatus hashFn email password
  let obj := createActivation genTok now obj
  forceStatus obj "activation"

/-- `UserAccount.login`: rejects when the status is not `active`, then when
the stored credential is `null`, otherwise resolves to
`Password.validate(acc.password, password)` (the collaborator `verify`). -/
def login (verify : IPassword → String → Bool) (acc : IUserAccount) (password : String) :
    Except String Bool :=
  if acc.status ≠ "active" then
    .error "Account with non-active status attempting login"
  else
    match acc.password with
    | none => .error "User has nullified password"
    | some p => .ok (verify p password)

end UserAccount

namespace UserAccount.Inst

/-- Instance method `applyReset` (mutating form): throws before any mutation
when the reset is absent or the token does not align; deletes `reset` on
success. -/
def applyReset (token : String) (s : IUserAccount) : Except String Unit × IUserAccount :=
  if s.reset = none then
    (.error "Reset on this instance is undefined. Nothing to validate against", s)
  else if ExpireableToken.validateStrings s.reset token = false then
    (.error "Token does not align with the reset token", s)
  else
    (.ok (), { s with reset := none })

/-- Instance method `forceStatus` (mutating form): throws on a status not in
`statusKeys`, otherwise assigns it. -/
def forceStatus (status : String) (s : IUserAccount) : Except String Unit × IUserAccount :=
  if statusKeys.contains status = false then
    (.error "Unable to set invalid status.", s)
  else
    (.ok (), { s with status := status })

/-- Instance method `setPrimaryEmail` (mutating form): an integer argument
looks up `this.emails[n]`, throwing when it is `undefined`; a string argument
is assigned directly. -/
def setPrimaryEmail (obj : String ⊕ ℤ) (s : IUserAccount) :
    Except String Unit × IUserAccount :=
  match obj with
  | .inr n =>
    match jsGet s.emails n with
    | none => (.error ("No email at index " ++ toString n), s)
    | some em => (.ok (), { s with primaryEmail := em.email })
  | .inl str => (.ok (), { s with primaryEmail := str })

end UserAccount.Inst

/-- A concrete hashing collaborator for evaluating the model at concrete
inputs: a full credential record derived from the raw string. -/
def sampleHash (raw : String) : IPassword :=
  { hash := some ("hashed:" ++ raw), salt := some "salt", created := some 0 }

/-- A concrete verification collaborator for evaluating the model. -/
def sampleVerify (p : IPassword) (raw : String) : Bool :=
  p.hash == some ("hashed:" ++ raw)

/-- A concrete account with no credential and no pending tokens. -/
def acctBare : IUserAccount :=
  { username := none, primaryEmail := "me@jonathanschmold.ca", emails := []
    status := "active", activation := none, password := none, reset := none }

/-- A concrete active account holding a full credential. -/
def acctWithPw : IUserAccount :=
  { acctBare with password := some (sampleHash "pw") }

/-- A concrete account with a pending reset token. -/
def acctWithReset : IUserAccount :=
  { acctBare with
      reset := some { created := 0, token := "tok123", email := "me@jonathanschmold.ca" } }

/-- A concrete locked account with no credential. -/
def acctLockedNoPw : IUserAccount :=
  { acctBare with status := "locked" }

/-- `r` is the clone-shaped result of a pure transition whose intended
outcome is the account `a`: every field of `r` equals the corresponding
field of `a`, except that the credential field is the (always present)
object spread of `a`'s credential. -/
def cloneFrame (a r : IUserAccount) : Prop :=
  r.username = a.username ∧ r.primaryEmail = a.primaryEmail ∧ r.emails = a.emails ∧
  r.status = a.status ∧ r.activation = a.activation ∧ r.reset = a.reset ∧
  r.password = some (spreadPassword a.password)

/-- C7: for every token, `expiryDate` returns the created time plus
`ExpirationLength * 3600 * 1000` milliseconds, or `null` when the
expiration length is unlimited (null, as normalized by the setter from null
or any value ≤ 0); `hasExpired` is false when unlimited, and otherwise is
true iff the current time is ≥ the expiry date. -/
theorem C7_expiry (len : ℚ) (reset : IExpireableToken) (now : ℚ) :
    ExpireableToken.expiryDate (some len) reset
      = some (reset.created + len * 3600 * 1000) ∧
    ExpireableToken.expiryDate none reset = none ∧
    ExpireableToken.hasExpired none now reset = false ∧
    (ExpireableToken.hasExpired (some len) now reset = true
      ↔ now ≥ reset.created + len * 3600 * 1000) ∧
    (∀ q : ℚ, q ≤ 0 → ExpireableToken.setExpirationLength (some q) = none) ∧
    ExpireableToken.setExpirationLength none = none := by
  refine ⟨?_, rfl, rfl, ?_, ?_, rfl⟩
  · show some (reset.created + len * 60 ^ 2 * 1000) = _
    norm_num
  · show decide (now ≥ reset.created + len * 60 ^ 2 * 1000) = true ↔ _
    rw [decide_eq_true_iff]
    norm_num
  · intro q hq
    show (if q ≤ 0 then none else some q) = none
    simp [hq]

/-- C7 witness: the theorem applied at expiration length 1 hour, a token
created at time 0, and current time 3600000 ms (exactly the expiry date). -/
theorem C7_expiry_witness :
    ExpireableToken.expiryDate (some 1) { created := 0, token := "t", email := "e" }
      = some (0 + 1 * 3600 * 1000) ∧
    ExpireableToken.hasExpired (some 1) 3600000 { created := 0, token := "t", email := "e" }
      = true ∧
    ExpireableToken.setExpirationLength (some (-1)) = none := by
  have h := C7_expiry 1 { created := 0, token := "t", email := "e" } 3600000
  exact ⟨h.1, h.2.2.2.1.mpr (by norm_num), h.2.2.2.2.1 (-1) (by norm_num)⟩

/-- C2: `applyReset` in the pure form and in the instance form fails with the
absent-reset error when no reset token is present, fails with the distinct
does-not-align error when a reset token is present but the candidate string
differs from its token string, leaves the account unchanged in both failure
cases (the instance state returned alongside the error is the input state),
and the two failure kinds carry distinct messages. -/
theorem C2_applyReset (user : IUserAccount) (token : String) :
    (user.reset = none →
      UserAccount.applyReset user token = .error "Reset does not exist on object" ∧
      UserAccount.Inst.applyReset token user
        = (.error "Reset on this instance is undefined. Nothing to validate against", user)) ∧
    (∀ rt : IExpireableToken, user.reset = some rt → rt.token ≠ token →
      UserAccount.applyReset user token = .error "Token does not align with reset token" ∧
      UserAccount.Inst.applyReset token user
        = (.error "Token does not align with the reset token", user)) ∧
    ("Reset does not exist on object" ≠ "Token does not align with reset token") ∧
    ("Reset on this instance is undefined. Nothing to validate against"
      ≠ "Token does not align with the reset token") := by
  refine ⟨?_, ?_, by decide, by decide⟩
  · intro h
    constructor
    · simp [UserAccount.applyReset, h]
    · simp [UserAccount.Inst.applyReset, h]
  · intro rt h hne
    constructor
    · simp [UserAccount.applyReset, h, ExpireableToken.validateStrings, hne]
    · simp [UserAccount.Inst.applyReset, h, ExpireableToken.validateStrings, hne]

/-- C2 witness: the theorem applied to a concrete account with no reset and
to a concrete account whose reset token is `"tok123"` tried with `"wrong"`. -/
theorem C2_applyReset_witness :
    UserAccount.applyReset acctBare "x" = .error "Reset does not exist on object" ∧
    UserAccount.applyReset acctWithReset "wrong"
      = .error "Token does not align with reset token" := by
  have h1 := (C2_applyReset acctBare "x").1 rfl
  have h2 := (C2_applyReset acctWithReset "wrong").2.1
    { created := 0, token := "tok123", email := "me@jonathanschmold.ca" } rfl (by decide)
  exact ⟨h1.1, h2.1⟩

/-- C3: `forceStatus` in the pure form and in the instance form rejects any
status outside `statusKeys` with an invalid-status error, leaving the
account unchanged (the instance state returned alongside the error is the
input state); for a status in `statusKeys`, both forms set the account's
status to it. -/
theorem C3_forceStatus (user : IUserAccount) (status : String) :
    (UserAccount.statusKeys.contains status = false →
      UserAccount.forceStatus user status
        = .error ("Invalid status key " ++ status
            ++ ". Valid keys are active, locked, activation") ∧
      UserAccount.Inst.forceStatus status user
        = (.error "Unable to set invalid status.", user)) ∧
    (UserAccount.statusKeys.contains status = true →
      (∃ r, UserAccount.forceStatus user status = .ok r ∧ r.status = status) ∧
      UserAccount.Inst.forceStatus status user
        = (.ok (), { user with status := status })) := by
  constructor
  · intro h
    have h' : status ∉ UserAccount.statusKeys := by simpa using h
    constructor
    · simp [UserAccount.forceStatus, h, h']
    · simp [UserAccount.Inst.forceStatus, h, h']
  · intro h
    have h' : status ∈ UserAccount.statusKeys := by simpa using h
    refine ⟨⟨{ UserAccount.fromObject user with status := status }, ?_, rfl⟩, ?_⟩
    · simp [UserAccount.forceStatus, h, h']
    · simp [UserAccount.Inst.forceStatus, h, h']

/-- C3 witness: the theorem applied at the invalid status `"bogus"` and at
the valid status `"locked"` on a concrete account. -/
theorem C3_forceStatus_witness :
    UserAccount.Inst.forceStatus "bogus" acctBare
      = (.error "Unable to set invalid status.", acctBare) ∧
    UserAccount.Inst.forceStatus "locked" acctBare
      = (.ok (), { acctBare with status := "locked" }) := by
  have h1 := (C3_forceStatus acctBare "bogus").1 (by decide)
  have h2 := (C3_forceStatus acctBare "locked").2 (by decide)
  exact ⟨h1.2, h2.2⟩

/-- C9: `setPrimaryEmail` with an integer index at or beyond the length of
the emails list fails with an out-of-bounds error in the pure form and in
the instance form, and the instance state returned alongside the error is
the input state. -/
theorem C9_setPrimaryEmail (user : IUserAccount) (n : ℤ)
    (h : (user.emails.length : ℤ) ≤ n) :
    UserAccount.setPrimaryEmail user (.inr n)
      = .error ("Index " ++ toString n
          ++ " is out of bounds; Email at user.emails at index is undefined.") ∧
    UserAccount.Inst.setPrimaryEmail (.inr n) user
      = (.error ("No email at index " ++ toString n), user) := by
  have hn : jsGet user.emails n = none := by
    unfold jsGet
    rw [if_neg (by omega)]
    rw [List.get?_eq_none]
    omega
  constructor
  · simp [UserAccount.setPrimaryEmail, hn]
  · simp [UserAccount.Inst.setPrimaryEmail, hn]

/-- C9 witness: the theorem applied to a concrete account with an empty
emails list and index 0. -/
theorem C9_setPrimaryEmail_witness :
    UserAccount.setPrimaryEmail acctBare (.inr 0)
      = .error ("Index " ++ toString (0 : ℤ)
          ++ " is out of bounds; Email at user.emails at index is undefined.") ∧
    UserAccount.Inst.setPrimaryEmail (.inr 0) acctBare
      = (.error ("No email at index " ++ toString (0 : ℤ)), acctBare) :=
  C9_setPrimaryEmail acctBare 0 (by decide)

/-- C4: `login` rejects with the non-active-status error whenever the
account's status is not `active` (for any password argument), rejects with
the nullified-password error when the status is `active` but no credential
is present, and otherwise resolves to the boolean produced by verifying the
raw password against the stored credential. -/
theorem C4_login (verify : IPassword → String → Bool) (acc : IUserAccount) (pwd : String) :
    (acc.status ≠ "active" →
      UserAccount.login verify acc pwd
        = .error "Account with non-active status attempting login") ∧
    (acc.status = "active" → acc.password = none →
      UserAccount.login verify acc pwd = .error "User has nullified password") ∧
    (∀ p : IPassword, acc.status = "active" → acc.password = some p →
      UserAccount.login verify acc pwd = .ok (verify p pwd)) := by
  refine ⟨?_, ?_, ?_⟩
  · intro h
    simp [UserAccount.login, h]
  · intro h hp
    simp [UserAccount.login, h, hp]
  · intro p h hp
    simp [UserAccount.login, h, hp]

/-- C4 witness: the theorem applied to a concrete account in `activation`
status, a concrete active account without a credential, and a concrete
active account with a credential (where the verification boolean is
returned for a correct and for an incorrect password). -/
theorem C4_login_witness :
    UserAccount.login sampleVerify { acctBare with status := "activation" } "pw"
      = .error "Account with non-active status attempting login" ∧
    UserAccount.login sampleVerify acctBare "pw"
      = .error "User has nullified password" ∧
    UserAccount.login sampleVerify acctWithPw "pw" = .ok true ∧
    UserAccount.login sampleVerify acctWithPw "other" = .ok false := by
  refine ⟨?_, ?_, ?_, ?_⟩
  · exact (C4_login sampleVerify { acctBare with status := "activation" } "pw").1 (by decide)
  · exact (C4_login sampleVerify acctBare "pw").2.1 rfl rfl
  · have h := (C4_login sampleVerify acctWithPw "pw").2.2 (sampleHash "pw") rfl rfl
    exact h.trans (congrArg Except.ok (by decide))
  · have h := (C4_login sampleVerify acctWithPw "other").2.2 (sampleHash "pw") rfl rfl
    exact h.trans (congrArg Except.ok (by decide))

/-- C10: on an account whose status is not `active` and which has no
credential, `login` fails with the non-active-status error and not with the
nullified-password error: the status precondition is checked first. -/
theorem C10_login_status_first (verify : IPassword → String → Bool) (acc : IUserAccount)
    (pwd : String) (hs : acc.status ≠ "active") (hp : acc.password = none) :
    UserAccount.login verify acc pwd
      = .error "Account with non-active status attempting login" ∧
    UserAccount.login verify acc pwd ≠ .error "User has nullified password" := by
  have h : UserAccount.login verify acc pwd
      = .error "Account with non-active status attempting login" := by
    simp [UserAccount.login, hs]
  refine ⟨h, ?_⟩
  rw [h]
  intro hcontra
  exact absurd (Except.error.inj hcontra) (by decide)

/-- C10 witness: the theorem applied to a concrete locked account with no
credential. -/
theorem C10_login_status_first_witness :
    UserAccount.login sampleVerify acctLockedNoPw "pw"
      = .error "Account with non-active status attempting login" ∧
    UserAccount.login sampleVerify acctLockedNoPw "pw"
      ≠ .error "User has nullified password" :=
  C10_login_status_first sampleVerify acctLockedNoPw "pw" (by decide) rfl

/-- C5: `register` always succeeds and produces an account whose status is
`activation` and whose `activation` field holds a token bound to the
account's primary email (which is the given email); moreover `register`
is exactly `create` followed by `createActivation` followed by
`forceStatus('activation')`. -/
theorem C5_register (defaultStatus : String) (hashFn : String → IPassword)
    (genTok : String) (now : ℚ) (email : String) (password : Option String) :
    ∃ r, UserAccount.register defaultStatus hashFn genTok now email password = .ok r ∧
      r.status = "activation" ∧
      r.primaryEmail = email ∧
      r.activation = some { created := now, token := genTok, email := r.primaryEmail } ∧
      UserAccount.register defaultStatus hashFn genTok now email password
        = UserAccount.forceStatus
            (UserAccount.createActivation genTok now
              (UserAccount.create defaultStatus hashFn email password)) "activation" := by
  have hpe : (UserAccount.create defaultStatus hashFn email password).primaryEmail
      = email := by
    unfold UserAccount.create
    cases password with
    | none => rfl
    | some p =>
      dsimp only
      split <;> rfl
  refine ⟨{ UserAccount.fromObject
      (UserAccount.createActivation genTok now
        (UserAccount.create defaultStatus hashFn email password)) with
      status := "activation" }, ?_, rfl, ?_, ?_, rfl⟩
  · show UserAccount.forceStatus _ "activation" = _
    simp [UserAccount.forceStatus, UserAccount.statusKeys]
  · show (UserAccount.createActivation genTok now
      (UserAccount.create defaultStatus hashFn email password)).primaryEmail = email
    simpa [UserAccount.createActivation, UserAccount.fromObject] using hpe
  · show (UserAccount.createActivation genTok now
        (UserAccount.create defaultStatus hashFn email password)).activation = some _
    simp only [UserAccount.createActivation, UserAccount.fromObject]

/-- C6 counterexample: `create` called with the explicitly given password
`""` produces an account with *no* credential (the `if (password)` truthiness
check skips hashing for the empty string), refuting "a credential hashed
from the password whenever a password argument is given". -/
theorem C6_create_counterexample :
    (UserAccount.create "activation" sampleHash "a@b.c" (some "")).password = none ∧
    (UserAccount.create "activation" sampleHash "a@b.c" (some "")).password
      ≠ some (sampleHash "") := by
  exact ⟨rfl, by decide⟩

/-- C6 (amended): `create` returns an account with `primaryEmail` equal to
the given email, status equal to the process-wide default status, an empty
emails list and no pending tokens; the credential is hashed from the
password whenever a *non-empty* password argument is given, and the account
has no credential when no password is given or the given password is the
empty string. -/
theorem C6_create (defaultStatus : String) (hashFn : String → IPassword) (email : String) :
    UserAccount.create defaultStatus hashFn email none
      = { username := none, primaryEmail := email, emails := [], status := defaultStatus
          activation := none, password := none, reset := none } ∧
    (∀ p : String, p ≠ "" →
      UserAccount.create defaultStatus hashFn email (some p)
        = { username := none, primaryEmail := email, emails := [], status := defaultStatus
            activation := none, password := some (hashFn p), reset := none }) ∧
    UserAccount.create defaultStatus hashFn email (some "")
      = { username := none, primaryEmail := email, emails := [], status := defaultStatus
          activation := none, password := none, reset := none } := by
  refine ⟨rfl, ?_, rfl⟩
  intro p hp
  unfold UserAccount.create
  dsimp only
  rw [if_neg (by simpa using hp)]

/-- C6 witness: the amended theorem applied at a concrete email with the
non-empty password `"pw"` and with no password. -/
theorem C6_create_witness :
    UserAccount.create "activation" sampleHash "a@b.c" (some "pw")
      = { username := none, primaryEmail := "a@b.c", emails := [], status := "activation"
          activation := none, password := some (sampleHash "pw"), reset := none } ∧
    UserAccount.create "activation" sampleHash "a@b.c" none
      = { username := none, primaryEmail := "a@b.c", emails := [], status := "activation"
          activation := none, password := none, reset := none } :=
  ⟨(C6_create "activation" sampleHash "a@b.c").2.1 "pw" (by decide),
   (C6_create "activation" sampleHash "a@b.c").1⟩

/-- C8: token validation (`validateStrings`, `validate`) returns true iff the
candidate string equals the reference token's token string; it is a total
boolean function and its result depends neither on the bound email nor on
the created time (so expiry is never consulted). -/
theorem C8_validate (ref : IExpireableToken) (cand : String) (e : String) (c : ℚ)
    (objB : IExpireableToken) :
    (ExpireableToken.validateStrings (some ref) cand = true ↔ ref.token = cand) ∧
    ExpireableToken.validateStrings none cand = false ∧
    (ExpireableToken.validate ref objB = true ↔ ref.token = objB.token) ∧
    ExpireableToken.validateStrings (some { ref with email := e }) cand
      = ExpireableToken.validateStrings (some ref) cand ∧
    ExpireableToken.validateStrings (some { ref with created := c }) cand
      = ExpireableToken.validateStrings (some ref) cand := by
  refine ⟨?_, rfl, ?_, rfl, rfl⟩
  · show (ref.token == cand) = true ↔ _
    exact beq_iff_eq
  · show (ref.token == objB.token) = true ↔ _
    exact beq_iff_eq

/-- C1 counterexample: the pure form of `forceStatus` on a concrete account
with no credential returns an account whose credential field is a *present*
empty object — not absent — refuting "for an account with no credential,
the result's password/credential field is still absent and unchanged"
(the clone spreads the absent credential, and `{ ...undefined }` is `{}`). -/
theorem C1_immutability_counterexample :
    (UserAccount.forceStatus acctBare "locked").map IUserAccount.password
      = Except.ok (some { hash := none, salt := none, created := none }) ∧
    acctBare.password = none ∧
    (UserAccount.forceStatus acctBare "locked").map IUserAccount.password
      ≠ Except.ok acctBare.password := by
  have h1 : (UserAccount.forceStatus acctBare "locked").map IUserAccount.password
      = Except.ok (some { hash := none, salt := none, created := none }) := rfl
  have h2 : acctBare.password = none := rfl
  refine ⟨h1, h2, ?_⟩
  rw [h1, h2]
  intro hcontra
  exact Option.noConfusion (Except.ok.inj hcontra)

/-- C1 (amended): every pure-form transition returns a value (never mutating
its input, which is inherent to the value semantics of the embedding) in
which every field the operation does not claim to modify is preserved,
*except* the credential field, which in the result is always the present
object spread of the input credential (deeply equal to it when it exists,
the present empty object when the input has none) — with the single
exception of `removeEmail` when nothing matches, which returns the shallow
copy `{ ...user }` preserving every field, the absent credential included. -/
theorem C1_pure_ops (user : IUserAccount) :
    (∀ g t, cloneFrame
      { user with activation := some { created := t, token := g, email := user.primaryEmail } }
      (UserAccount.createActivation g t user)) ∧
    (∀ tok r, UserAccount.activate user tok = .ok r →
      cloneFrame { user with activation := none } r) ∧
    (∀ t em lb, cloneFrame
      { user with emails := user.emails ++ [{ email := em, label := lb, added := t }] }
      (UserAccount.addEmail t user em lb)) ∧
    (∀ n : ℤ, n < 0 → UserAccount.removeEmail user (.inr n) = user) ∧
    (∀ n : ℤ, 0 ≤ n → cloneFrame { user with emails := user.emails.eraseIdx n.toNat }
      (UserAccount.removeEmail user (.inr n))) ∧
    (∀ s, List.findIdx? (fun v => v.email == s) user.emails = none →
      UserAccount.removeEmail user (.inl s) = user) ∧
    (∀ s i, List.findIdx? (fun v => v.email == s) user.emails = some i →
      cloneFrame { user with emails := user.emails.eraseIdx i }
        (UserAccount.removeEmail user (.inl s))) ∧
    (∀ g t, cloneFrame
      { user with reset := some { created := t, token := g, email := user.primaryEmail } }
      (UserAccount.createReset g t user)) ∧
    (∀ tok r, UserAccount.applyReset user tok = .ok r →
      cloneFrame { user with reset := none } r) ∧
    (∀ s r, UserAccount.setPrimaryEmail user (.inl s) = .ok r →
      cloneFrame { user with primaryEmail := s } r) ∧
    (∀ n em r, jsGet user.emails n = some em →
      UserAccount.setPrimaryEmail user (.inr n) = .ok r →
      cloneFrame { user with primaryEmail := em.email } r) ∧
    (∀ hf pwd,
      (UserAccount.setPassword hf user pwd).username = user.username ∧
      (UserAccount.setPassword hf user pwd).primaryEmail = user.primaryEmail ∧
      (UserAccount.setPassword hf user pwd).emails = user.emails ∧
      (UserAccount.setPassword hf user pwd).status = user.status ∧
      (UserAccount.setPassword hf user pwd).activation = user.activation ∧
      (UserAccount.setPassword hf user pwd).reset = user.reset ∧
      (UserAccount.setPassword hf user pwd).password = pwd.map hf) ∧
    (∀ s r, UserAccount.forceStatus user s = .ok r →
      cloneFrame { user with status := s } r) ∧
    cloneFrame { user with status := "locked" } (UserAccount.deactivate user) ∧
    cloneFrame { user with status := "active" } (UserAccount.reactivate user) := by
  refine ⟨?_, ?_, ?_, ?_, ?_, ?_, ?_, ?_, ?_, ?_, ?_, ?_, ?_, ?_, ?_⟩
  · intro g t
    exact ⟨rfl, rfl, rfl, rfl, rfl, rfl, rfl⟩
  · intro tok r h
    unfold UserAccount.activate at h
    split at h
    · simp at h
    · split at h
      · simp at h
      · injection h with h
        subst h
        exact ⟨rfl, rfl, rfl, rfl, rfl, rfl, rfl⟩
  · intro t em lb
    exact ⟨rfl, rfl, rfl, rfl, rfl, rfl, rfl⟩
  · intro n hn
    unfold UserAccount.removeEmail
    dsimp only
    rw [if_pos hn]
  · intro n hn
    unfold UserAccount.removeEmail
    dsimp only
    rw [if_neg (by omega)]
    exact ⟨rfl, rfl, rfl, rfl, rfl, rfl, rfl⟩
  · intro s h
    unfold UserAccount.removeEmail
    dsimp only
    rw [h]
    dsimp only
    rw [if_pos (by norm_num)]
  · intro s i h
    unfold UserAccount.removeEmail
    dsimp only
    rw [h]
    dsimp only
    rw [if_neg (by omega)]
    exact ⟨rfl, rfl, rfl, rfl, rfl, rfl, rfl⟩
  · intro g t
    exact ⟨rfl, rfl, rfl, rfl, rfl, rfl, rfl⟩
  · intro tok r h
    unfold UserAccount.applyReset at h
    split at h
    · simp at h
    · split at h
      · simp at h
      · injection h with h
        subst h
        exact ⟨rfl, rfl, rfl, rfl, rfl, rfl, rfl⟩
  · intro s r h
    unfold UserAccount.setPrimaryEmail at h
    dsimp only at h
    injection h with h
    subst h
    exact ⟨rfl, rfl, rfl, rfl, rfl, rfl, rfl⟩
  · intro n em r hm h
    unfold UserAccount.setPrimaryEmail at h
    dsimp only at h
    rw [hm] at h
    dsimp only at h
    injection h with h
    subst h
    exact ⟨rfl, rfl, rfl, rfl, rfl, rfl, rfl⟩
  · intro hf pwd
    exact ⟨rfl, rfl, rfl, rfl, rfl, rfl, rfl⟩
  · intro s r h
    unfold UserAccount.forceStatus at h
    split at h
    · simp at h
    · injection h with h
      subst h
      exact ⟨rfl, rfl, rfl, rfl, rfl, rfl, rfl⟩
  · exact ⟨rfl, rfl, rfl, rfl, rfl, rfl, rfl⟩
  · exact ⟨rfl, rfl, rfl, rfl, rfl, rfl, rfl⟩

/-- C1 witness: the amended theorem applied to concrete accounts — the
`forceStatus` clause at a valid status, the `applyReset` clause at the
matching token, and the `removeEmail` clause at a negative index. -/
theorem C1_pure_ops_witness :
    cloneFrame { acctBare with status := "locked" }
      { UserAccount.fromObject acctBare with status := "locked" } ∧
    cloneFrame { acctWithReset with reset := none }
      { UserAccount.fromObject acctWithReset with
          emails := acctWithReset.emails, reset := none } ∧
    UserAccount.removeEmail acctBare (.inr (-1)) = acctBare := by
  refine ⟨?_, ?_, ?_⟩
  · exact (C1_pure_ops acctBare).2.2.2.2.2.2.2.2.2.2.2.2.1 "locked" _ rfl
  · exact (C1_pure_ops acctWithReset).2.2.2.2.2.2.2.2.1 "tok123" _ rfl
  · exact (C1_pure_ops acctBare).2.2.2.1 (-1) (by decide)
